import Mathlib

/-!
Verification of the ComfyUI generation client (`pkg/comfyui/client.go`).

The Go client builds a fixed text-to-image workflow graph, POSTs it to
`<base>/prompt`, and polls `<base>/history/<prompt_id>` until an image
appears or 300 attempts are exhausted.  Everything below is a shallow
embedding of that file: JSON values are an inductive type, the HTTP
round trips are inputs (`SubmitOutcome`, one `PollOutcome` per attempt),
the in-place mutation of `*Params` is explicit state passing (the
post-call parameter record is part of the returned trace), and
`time.Now().UnixNano()` is the explicit argument `nowUnixNano`.
-/

namespace ComfyUI

/-- JSON values, as produced by Go's `json.Marshal` on the
`map[string]interface{}` workflow (objects keep source ordering; key order
is irrelevant to the properties proved here). -/
inductive JValue where
  | str : String → JValue
  | int : Int → JValue
  | num : ℚ → JValue
  | arr : List JValue → JValue
  | obj : List (String × JValue) → JValue

/-- `Client` from client.go (the injected `http.Client` is not data). -/
structure Client where
  BaseURL : String
  ClientID : String

/-- `Params` from client.go.  `CFG` (a Go `float64` only ever compared to 0
and serialized) is modelled as a rational. -/
structure Params where
  Prompt : String
  Width : Int
  Height : Int
  Steps : Int
  CFG : ℚ
  Seed : Int
  BaiduTranslateAppID : String
  BaiduTranslateAppKey : String

/-- One image record of a history stage output (`filename`, `subfolder`,
`type` in the Go anonymous struct). -/
structure ImageInfo where
  Filename : String
  Subfolder : String
  Typ : String

/-- One stage output of a history entry (`outputs` map value). -/
structure StageOutput where
  Images : List ImageInfo

/-- One history entry: stage id ↦ stage output, in decode order. -/
structure HistEntry where
  Outputs : List (String × StageOutput)

/-- Outcome of the submission POST: either a transport error from
`hc.Do`, or a response carrying the numeric status code, the status text
(`resp.Status`), the raw body text, and the result of decoding the body
into the `prompt_id` struct (`none` means decode error, `some pid` the
decoded field, `""` when absent). -/
inductive SubmitOutcome where
  | transportErr (msg : String)
  | resp (statusCode : Nat) (status : String) (body : String)
      (decodedPromptID : Option String)

/-- Outcome of one polling GET: transport error from `hc.Do`, or a
response whose body decodes to a history map (`none` models a decode
error, which in the source leaves the freshly declared map empty so the
lookup misses). -/
inductive PollOutcome where
  | transportErr
  | resp (decoded : Option (List (String × HistEntry)))

/-- `buildWorkflow` from client.go, node by node.  A stage-output
reference `[]interface{}{"21", 0}` becomes `.arr [.str "21", .int 0]`. -/
def buildWorkflow (prompt : String) (width height steps : Int) (cfg : ℚ)
    (seed : Int) (baiduAppID baiduAppKey : String) :
    List (String × JValue) :=
  let inputs24base : List (String × JValue) :=
    [("from_translate", .str "auto"),
     ("to_translate", .str "en"),
     ("text", .str prompt)]
  let inputs24 : List (String × JValue) :=
    if baiduAppID ≠ "" ∧ baiduAppKey ≠ "" then
      inputs24base ++
        [("baidu_appid", .str baiduAppID),
         ("baidu_appkey", .str baiduAppKey)]
    else inputs24base
  let node24 : JValue :=
    .obj [("inputs", .obj inputs24),
          ("class_type", .str "BaiduTranslateNode")]
  [("4", .obj [("inputs", .obj [("conditioning", .arr [.str "21", .int 0])]),
               ("class_type", .str "ConditioningZeroOut")]),
   ("5", .obj [("inputs", .obj [("samples", .arr [.str "15", .int 0]),
                                ("vae", .arr [.str "19", .int 0])]),
               ("class_type", .str "VAEDecode")]),
   ("8", .obj [("inputs", .obj [("filename_prefix", .str "comfy_ui_generated"),
                                ("images", .arr [.str "5", .int 0])]),
               ("class_type", .str "SaveImage")]),
   ("15", .obj [("inputs", .obj
                  [("seed", .int seed), ("steps", .int steps), ("cfg", .num cfg),
                   ("sampler_name", .str "euler"), ("scheduler", .str "beta"),
                   ("denoise", .int 1),
                   ("model", .arr [.str "17", .int 0]),
                   ("positive", .arr [.str "21", .int 0]),
                   ("negative", .arr [.str "4", .int 0]),
                   ("latent_image", .arr [.str "20", .int 0])]),
                ("class_type", .str "KSampler")]),
   ("17", .obj [("inputs", .obj
                  [("unet_name", .str "flux\\flux1-dev.safetensors"),
                   ("weight_dtype", .str "fp8_e4m3fn")]),
                ("class_type", .str "UNETLoader")]),
   ("18", .obj [("inputs", .obj
                  [("clip_name1", .str "flux\\t5xxl_fp8_e4m3fn.safetensors"),
                   ("clip_name2", .str "flux\\clip_l.safetensors"),
                   ("type", .str "flux"), ("device", .str "default")]),
                ("class_type", .str "DualCLIPLoader")]),
   ("19", .obj [("inputs", .obj [("vae_name", .str "flux\\ae.safetensors")]),
                ("class_type", .str "VAELoader")]),
   ("20", .obj [("inputs", .obj
                  [("width", .int width), ("height", .int height),
                   ("batch_size", .int 1)]),
                ("class_type", .str "EmptyLatentImage")]),
   ("21", .obj [("inputs", .obj [("text", .arr [.str "24", .int 0]),
                                 ("clip", .arr [.str "18", .int 0])]),
                ("class_type", .str "CLIPTextEncode")]),
   ("24", node24)]

/-- Lines 34-48 of client.go: the in-place defaulting of `*Params`.
Go's `%` on `int64` is truncated remainder, i.e. `Int.tmod`. -/
def normalizeParams (p : Params) (nowUnixNano : Int) : Params :=
  { p with
    Width := if p.Width ≤ 0 then 1080 else p.Width,
    Height := if p.Height ≤ 0 then 1920 else p.Height,
    Steps := if p.Steps ≤ 0 then 25 else p.Steps,
    CFG := if p.CFG ≤ 0 then 1 else p.CFG,
    Seed := if p.Seed = 0 then Int.tmod nowUnixNano 100000000000000
            else p.Seed }

/-- Lines 55-57: drop one trailing slash byte from the (nonempty) base.
In UTF-8 the final byte is `'/'` exactly when the final character is, so
the byte test of the source is the character test on `s.data`. -/
def stripTrailingSlash (s : String) : String :=
  if s.data.getLast? = some '/' then String.mk s.data.dropLast else s

/-- Lines 124-125: `fmt.Sprintf("%s/view?filename=%s&subfolder=%s&type=%s", ...)` —
plain interpolation, no escaping of the image fields. -/
def viewURL (baseURL : String) (img : ImageInfo) : String :=
  baseURL ++ "/view?filename=" ++ img.Filename ++ "&subfolder=" ++
    img.Subfolder ++ "&type=" ++ img.Typ

/-- Lines 121-127: scan the entry's outputs in order; the first one with a
nonempty image list yields its first image. -/
def findFirstImage : List (String × StageOutput) → Option ImageInfo
  | [] => none
  | (_, out) :: rest =>
    match out.Images with
    | [] => findFirstImage rest
    | img :: _ => some img

/-- Lines 100-128, one loop iteration after the sleep: transport error ⇒
nothing; decode error ⇒ empty map ⇒ lookup misses; entry present ⇒ scan
its outputs for an image and build the view URL. -/
def attemptFind (baseURL promptID : String) (o : PollOutcome) :
    Option String :=
  match o with
  | .transportErr => none
  | .resp decoded =>
    let history := decoded.getD []
    match history.lookup promptID with
    | none => none
    | some entry => (findFirstImage entry.Outputs).map (viewURL baseURL)

/-- Result of the polling loop together with how many iterations ran
(each iteration slept one second, then issued one GET). -/
inductive LoopResult where
  | found (url : String) (attempts : Nat)
  | timeout (attempts : Nat)

/-- Lines 98-129: the `for i := 0; i < 300; i++` loop, as fuel recursion;
`i` counts the iterations already run. -/
def pollLoop (baseURL promptID : String) (polls : Nat → PollOutcome) :
    Nat → Nat → LoopResult
  | i, 0 => .timeout i
  | i, fuel + 1 =>
    match attemptFind baseURL promptID (polls i) with
    | some url => .found url (i + 1)
    | none => pollLoop baseURL promptID polls (i + 1) fuel

/-- Everything observable about one `Generate` call: the post-call state
of the caller's `Params` (the Go code mutates through the pointer), the
serialized POST body (absent when the call fails before `json.Marshal`),
how many poll GETs and one-second sleeps happened, and the returned
`(imageURL, err)` pair (`error = none` is a nil error). -/
structure GenerateTrace where
  params : Params
  requestBody : Option JValue
  pollsAttempted : Nat
  sleeps : Nat
  imageURL : String
  error : Option String

/-- `Generate` from client.go.  The HTTP exchanges are inputs: `submit`
is the POST's outcome and `polls i` the outcome of the `i`-th history
GET.  `nowUnixNano` is `time.Now().UnixNano()` at line 47. -/
def Generate (c : Client) (p : Params) (nowUnixNano : Int)
    (submit : SubmitOutcome) (polls : Nat → PollOutcome) : GenerateTrace :=
  let q := normalizeParams p nowUnixNano
  let workflow := buildWorkflow q.Prompt q.Width q.Height q.Steps q.CFG
      q.Seed q.BaiduTranslateAppID q.BaiduTranslateAppKey
  if c.BaseURL = "" then
    { params := q, requestBody := none, pollsAttempted := 0, sleeps := 0,
      imageURL := "", error := some "comfyui base_url is required" }
  else
    let baseURL := stripTrailingSlash c.BaseURL
    let clientID := if c.ClientID = "" then "huobao_drama" else c.ClientID
    let body : JValue :=
      .obj [("prompt", .obj workflow), ("client_id", .str clientID)]
    match submit with
    | .transportErr msg =>
      { params := q, requestBody := some body, pollsAttempted := 0,
        sleeps := 0, imageURL := "",
        error := some ("comfyui submit: " ++ msg) }
    | .resp statusCode status respBody decodedPromptID =>
      if statusCode ≠ 200 then
        { params := q, requestBody := some body, pollsAttempted := 0,
          sleeps := 0, imageURL := "",
          error := some ("comfyui submit " ++ status ++ ": " ++ respBody) }
      else
        match decodedPromptID with
        | none =>
          { params := q, requestBody := some body, pollsAttempted := 0,
            sleeps := 0, imageURL := "",
            error := some "comfyui decode submit response" }
        | some promptID =>
          if promptID = "" then
            { params := q, requestBody := some body, pollsAttempted := 0,
              sleeps := 0, imageURL := "",
              error := some "comfyui no prompt_id in response" }
          else
            match pollLoop baseURL promptID polls 0 300 with
            | .found url n =>
              { params := q, requestBody := some body, pollsAttempted := n,
                sleeps := n, imageURL := url, error := none }
            | .timeout n =>
              { params := q, requestBody := some body, pollsAttempted := n,
                sleeps := n, imageURL := "",
                error := some "comfyui timeout waiting for result" }

/-- Look a node up in a workflow graph by its stage id. -/
def lookupNode (g : List (String × JValue)) (k : String) : Option JValue :=
  g.lookup k

/-- The named input of a node object, when present. -/
def nodeInput (node : Option JValue) (k : String) : Option JValue :=
  match node with
  | some (JValue.obj fields) =>
    match fields.lookup "inputs" with
    | some (JValue.obj inputs) => inputs.lookup k
    | _ => none
  | _ => none

/-- Whether a node object has class_type `BaiduTranslateNode`. -/
def isTranslationNode (v : JValue) : Bool :=
  match v with
  | JValue.obj fields =>
    match fields.lookup "class_type" with
    | some (JValue.str s) => s == "BaiduTranslateNode"
    | _ => false
  | _ => false

/-- Whether any stage of the graph is a translation stage. -/
def containsTranslationStage (g : List (String × JValue)) : Bool :=
  g.any fun kv => isTranslationNode kv.2

/-- Look a key up in the serialized request body of a trace. -/
def requestBodyLookup (t : GenerateTrace) (k : String) : Option JValue :=
  match t.requestBody with
  | some (JValue.obj fields) => fields.lookup k
  | _ => none

/-! ### Concrete inputs used to exercise the model -/

/-- A client with a nonempty base endpoint and unset client id. -/
def sampleClient : Client :=
  { BaseURL := "http://x", ClientID := "" }

/-- Parameters with every numeric field unset and a nonzero seed. -/
def sampleParams : Params :=
  { Prompt := "hi", Width := 0, Height := 0, Steps := 0, CFG := 0,
    Seed := 5, BaiduTranslateAppID := "", BaiduTranslateAppKey := "" }

/-- Parameters identical to `sampleParams` but with seed unset. -/
def sampleParamsSeed0 : Params :=
  { Prompt := "hi", Width := 0, Height := 0, Steps := 0, CFG := 0,
    Seed := 0, BaiduTranslateAppID := "", BaiduTranslateAppKey := "" }

/-- Parameters with every numeric field set to a positive value. -/
def samplePositiveParams : Params :=
  { Prompt := "hi", Width := 3, Height := 4, Steps := 6, CFG := 2,
    Seed := 5, BaiduTranslateAppID := "", BaiduTranslateAppKey := "" }

/-- A submission that succeeded with prompt id `"abc"`. -/
def sampleSubmitOK : SubmitOutcome :=
  SubmitOutcome.resp 200 "200 OK" "ok" (some "abc")

/-- Every poll attempt fails at the transport level. -/
def constTransportPolls : Nat → PollOutcome :=
  fun _ => PollOutcome.transportErr

/-- Every poll returns a history for job `"abc"` with one stage output
holding one image `{filename: "a.png", subfolder: "", type: "output"}`. -/
def samplePollsFound : Nat → PollOutcome :=
  fun _ => PollOutcome.resp (some
    [("abc", { Outputs := [("9", { Images :=
      [{ Filename := "a.png", Subfolder := "", Typ := "output" }] })] })])

/-- Every poll returns a history for job `"abc"` whose single image has
URL-significant characters in all three fields. -/
def samplePollsSpecial : Nat → PollOutcome :=
  fun _ => PollOutcome.resp (some
    [("abc", { Outputs := [("9", { Images :=
      [{ Filename := "a b.png", Subfolder := "x&y", Typ := "out=put" }] })] })])

/-- A transport error on attempt 0, empty histories afterwards. -/
def pollsErrAt0 : Nat → PollOutcome :=
  fun j => if j = 0 then PollOutcome.transportErr
           else PollOutcome.resp (some [])

/-- Every poll returns an empty history (job never present). -/
def pollsEmptyHistory : Nat → PollOutcome :=
  fun _ => PollOutcome.resp (some [])

/-! ### Shared lemmas -/

/-- Node 20's `width` input is the `width` argument, verbatim. -/
theorem buildWorkflow_width (pr : String) (w h st : Int) (cfg : ℚ)
    (sd : Int) (a k : String) :
    nodeInput (lookupNode (buildWorkflow pr w h st cfg sd a k) "20")
      "width" = some (JValue.int w) := rfl

/-- Node 20's `height` input is the `height` argument, verbatim. -/
theorem buildWorkflow_height (pr : String) (w h st : Int) (cfg : ℚ)
    (sd : Int) (a k : String) :
    nodeInput (lookupNode (buildWorkflow pr w h st cfg sd a k) "20")
      "height" = some (JValue.int h) := rfl

/-- Node 15's `steps` input is the `steps` argument, verbatim. -/
theorem buildWorkflow_steps (pr : String) (w h st : Int) (cfg : ℚ)
    (sd : Int) (a k : String) :
    nodeInput (lookupNode (buildWorkflow pr w h st cfg sd a k) "15")
      "steps" = some (JValue.int st) := rfl

/-- Node 15's `cfg` input is the `cfg` argument, verbatim. -/
theorem buildWorkflow_cfg (pr : String) (w h st : Int) (cfg : ℚ)
    (sd : Int) (a k : String) :
    nodeInput (lookupNode (buildWorkflow pr w h st cfg sd a k) "15")
      "cfg" = some (JValue.num cfg) := rfl

/-- Node 15's `seed` input is the `seed` argument, verbatim. -/
theorem buildWorkflow_seed (pr : String) (w h st : Int) (cfg : ℚ)
    (sd : Int) (a k : String) :
    nodeInput (lookupNode (buildWorkflow pr w h st cfg sd a k) "15")
      "seed" = some (JValue.int sd) := rfl

/-- Every branch of `Generate` stores the normalized parameters in the
trace: the defaulting happens before any early return. -/
theorem Generate_params_eq (c : Client) (p : Params) (now : Int)
    (submit : SubmitOutcome) (polls : Nat → PollOutcome) :
    (Generate c p now submit polls).params = normalizeParams p now := by
  unfold Generate
  cases submit <;>
    (simp only []
     repeat' split) <;>
    rfl

/-- When the base URL is nonempty, the request body is always built, with
the workflow under `"prompt"` and the client id under `"client_id"`. -/
theorem Generate_requestBody_eq (c : Client) (p : Params) (now : Int)
    (submit : SubmitOutcome) (polls : Nat → PollOutcome)
    (hb : c.BaseURL ≠ "") :
    (Generate c p now submit polls).requestBody =
      some (JValue.obj
        [("prompt", JValue.obj (buildWorkflow
            (normalizeParams p now).Prompt (normalizeParams p now).Width
            (normalizeParams p now).Height (normalizeParams p now).Steps
            (normalizeParams p now).CFG (normalizeParams p now).Seed
            (normalizeParams p now).BaiduTranslateAppID
            (normalizeParams p now).BaiduTranslateAppKey)),
         ("client_id", JValue.str
            (if c.ClientID = "" then "huobao_drama" else c.ClientID))]) := by
  unfold Generate
  cases submit <;>
    (simp only [if_neg hb]
     repeat' split) <;>
    rfl

/-- If a successful submission's poll loop ends in `found`, the trace
reports that URL, a nil error, and the iteration count. -/
theorem Generate_of_pollLoop_found (c : Client) (p : Params) (now : Int)
    (st bdy pid url : String) (n : Nat) (polls : Nat → PollOutcome)
    (hb : c.BaseURL ≠ "") (hp : pid ≠ "")
    (hl : pollLoop (stripTrailingSlash c.BaseURL) pid polls 0 300 =
      LoopResult.found url n) :
    (Generate c p now (SubmitOutcome.resp 200 st bdy (some pid))
        polls).imageURL = url ∧
    (Generate c p now (SubmitOutcome.resp 200 st bdy (some pid))
        polls).error = none ∧
    (Generate c p now (SubmitOutcome.resp 200 st bdy (some pid))
        polls).pollsAttempted = n ∧
    (Generate c p now (SubmitOutcome.resp 200 st bdy (some pid))
        polls).sleeps = n := by
  unfold Generate
  simp only [if_neg hb, ne_eq, not_true_eq_false, if_neg hp, ite_false,
    not_false_eq_true, hl]
  refine ⟨?_, ?_, ?_, ?_⟩ <;> trivial

/-- If a successful submission's poll loop ends in `timeout`, the trace
reports the timeout error, an empty URL, and the iteration count. -/
theorem Generate_of_pollLoop_timeout (c : Client) (p : Params) (now : Int)
    (st bdy pid : String) (n : Nat) (polls : Nat → PollOutcome)
    (hb : c.BaseURL ≠ "") (hp : pid ≠ "")
    (hl : pollLoop (stripTrailingSlash c.BaseURL) pid polls 0 300 =
      LoopResult.timeout n) :
    (Generate c p now (SubmitOutcome.resp 200 st bdy (some pid))
        polls).imageURL = "" ∧
    (Generate c p now (SubmitOutcome.resp 200 st bdy (some pid))
        polls).error = some "comfyui timeout waiting for result" ∧
    (Generate c p now (SubmitOutcome.resp 200 st bdy (some pid))
        polls).pollsAttempted = n ∧
    (Generate c p now (SubmitOutcome.resp 200 st bdy (some pid))
        polls).sleeps = n := by
  unfold Generate
  simp only [if_neg hb, ne_eq, not_true_eq_false, if_neg hp, ite_false,
    not_false_eq_true, hl]
  refine ⟨?_, ?_, ?_, ?_⟩ <;> trivial

/-- If every attempt in the window comes up empty, the loop times out
after running the whole window. -/
theorem pollLoop_timeout_of_none (base pid : String)
    (polls : Nat → PollOutcome) :
    ∀ (fuel i : Nat),
      (∀ j, j < fuel → attemptFind base pid (polls (i + j)) = none) →
      pollLoop base pid polls i fuel = LoopResult.timeout (i + fuel) := by
  intro fuel
  induction fuel with
  | zero => intro i _; rfl
  | succ fuel ih =>
    intro i h
    have h0 : attemptFind base pid (polls i) = none := by
      simpa using h 0 (Nat.succ_pos _)
    have ih' := ih (i + 1) (fun j hj => by
      have hx := h (j + 1) (by omega)
      rw [show i + (j + 1) = (i + 1) + j by omega] at hx
      exact hx)
    simp only [pollLoop, h0]
    rw [ih', show (i + 1) + fuel = i + (fuel + 1) by omega]

/-- If attempt `k` (inside the window) is the first to locate an image,
the loop returns that URL having run `k + 1` iterations. -/
theorem pollLoop_found_of_first (base pid url : String)
    (polls : Nat → PollOutcome) :
    ∀ (fuel k i : Nat), k < fuel →
      (∀ j, j < k → attemptFind base pid (polls (i + j)) = none) →
      attemptFind base pid (polls (i + k)) = some url →
      pollLoop base pid polls i fuel = LoopResult.found url (i + k + 1) := by
  intro fuel
  induction fuel with
  | zero => intro k i hk; exact absurd hk (Nat.not_lt_zero k)
  | succ fuel ih =>
    intro k i hk hnone hfind
    cases k with
    | zero =>
      simp only [Nat.add_zero] at hfind
      simp only [pollLoop, hfind]
    | succ k =>
      have h0 : attemptFind base pid (polls i) = none := by
        simpa using hnone 0 (Nat.succ_pos _)
      have hrec := ih k (i + 1) (by omega)
        (fun j hj => by
          have hx := hnone (j + 1) (by omega)
          rw [show i + (j + 1) = (i + 1) + j by omega] at hx
          exact hx)
        (by rw [show (i + 1) + k = i + (k + 1) by omega]; exact hfind)
      simp only [pollLoop, h0]
      rw [hrec, show (i + 1) + k + 1 = i + (k + 1) + 1 by omega]

/-- The loop only observes each attempt through `attemptFind`. -/
theorem pollLoop_congr (base pid : String)
    (polls polls' : Nat → PollOutcome)
    (h : ∀ j, attemptFind base pid (polls j) =
      attemptFind base pid (polls' j)) :
    ∀ (fuel i : Nat),
      pollLoop base pid polls i fuel = pollLoop base pid polls' i fuel := by
  intro fuel
  induction fuel with
  | zero => intro i; rfl
  | succ fuel ih =>
    intro i
    simp only [pollLoop, h i]
    cases attemptFind base pid (polls' i) with
    | none => exact ih (i + 1)
    | some url => rfl

/-- If attempt `i` is the first to decode a history containing the job id
with an image-bearing stage output, the call returns the view URL of that
output's first image after `i + 1` iterations, with a nil error. -/
theorem Generate_locates_image (c : Client) (p : Params) (now : Int)
    (st bdy pid : String) (polls : Nat → PollOutcome) (i : Nat)
    (history : List (String × HistEntry)) (entry : HistEntry)
    (img : ImageInfo)
    (hb : c.BaseURL ≠ "") (hp : pid ≠ "") (hi : i < 300)
    (hbefore : ∀ j, j < i →
      attemptFind (stripTrailingSlash c.BaseURL) pid (polls j) = none)
    (hpoll : polls i = PollOutcome.resp (some history))
    (hentry : history.lookup pid = some entry)
    (himg : findFirstImage entry.Outputs = some img) :
    (Generate c p now (SubmitOutcome.resp 200 st bdy (some pid))
        polls).imageURL = viewURL (stripTrailingSlash c.BaseURL) img ∧
    (Generate c p now (SubmitOutcome.resp 200 st bdy (some pid))
        polls).error = none ∧
    (Generate c p now (SubmitOutcome.resp 200 st bdy (some pid))
        polls).pollsAttempted = i + 1 ∧
    (Generate c p now (SubmitOutcome.resp 200 st bdy (some pid))
        polls).sleeps = i + 1 := by
  have hfind : attemptFind (stripTrailingSlash c.BaseURL) pid (polls i) =
      some (viewURL (stripTrailingSlash c.BaseURL) img) := by
    rw [hpoll]
    simp [attemptFind, hentry, himg]
  have hl := pollLoop_found_of_first (stripTrailingSlash c.BaseURL) pid
    (viewURL (stripTrailingSlash c.BaseURL) img) polls 300 i 0 hi
    (fun j hj => by rw [Nat.zero_add]; exact hbefore j hj)
    (by rw [Nat.zero_add]; exact hfind)
  rw [Nat.zero_add] at hl
  exact Generate_of_pollLoop_found c p now st bdy pid
    (viewURL (stripTrailingSlash c.BaseURL) img) (i + 1) polls hb hp hl

/-- `Seed` after normalization. -/
theorem normalizeParams_Seed (p : Params) (now : Int) :
    (normalizeParams p now).Seed =
      if p.Seed = 0 then Int.tmod now 100000000000000 else p.Seed := rfl

/-- `Width` after normalization. -/
theorem normalizeParams_Width (p : Params) (now : Int) :
    (normalizeParams p now).Width =
      if p.Width ≤ 0 then 1080 else p.Width := rfl

/-- `Height` after normalization. -/
theorem normalizeParams_Height (p : Params) (now : Int) :
    (normalizeParams p now).Height =
      if p.Height ≤ 0 then 1920 else p.Height := rfl

/-- `Steps` after normalization. -/
theorem normalizeParams_Steps (p : Params) (now : Int) :
    (normalizeParams p now).Steps =
      if p.Steps ≤ 0 then 25 else p.Steps := rfl

/-- `CFG` after normalization. -/
theorem normalizeParams_CFG (p : Params) (now : Int) :
    (normalizeParams p now).CFG =
      if p.CFG ≤ 0 then 1 else p.CFG := rfl

/-- The graph inside the POST body is `buildWorkflow` applied to the
normalized parameters. -/
theorem Generate_graph_eq (c : Client) (p : Params) (now : Int)
    (submit : SubmitOutcome) (polls : Nat → PollOutcome)
    (hb : c.BaseURL ≠ "") :
    requestBodyLookup (Generate c p now submit polls) "prompt" =
      some (JValue.obj (buildWorkflow
        (normalizeParams p now).Prompt (normalizeParams p now).Width
        (normalizeParams p now).Height (normalizeParams p now).Steps
        (normalizeParams p now).CFG (normalizeParams p now).Seed
        (normalizeParams p now).BaiduTranslateAppID
        (normalizeParams p now).BaiduTranslateAppKey)) := by
  have h := Generate_requestBody_eq c p now submit polls hb
  unfold requestBodyLookup
  rw [h]
  rfl

/-! ### Claims -/

/-- Claim C1, counterexample: with both translation credentials empty, the
built graph still contains the translation stage (node 24), and the text
encoder stage (node 21) takes its `text` input from the stage reference
`["24", 0]`, which is not the raw prompt `"hi"`. -/
theorem translation_stage_not_omitted_cex :
    containsTranslationStage
      (buildWorkflow "hi" 1080 1920 25 1 5 "" "") = true ∧
    nodeInput (lookupNode (buildWorkflow "hi" 1080 1920 25 1 5 "" "") "21")
      "text" = some (JValue.arr [JValue.str "24", JValue.int 0]) ∧
    JValue.arr [JValue.str "24", JValue.int 0] ≠ JValue.str "hi" := by
  refine ⟨rfl, rfl, ?_⟩
  intro h
  exact JValue.noConfusion h

/-- Claim C1 (amended): the translation stage (node 24) is present in
every built graph and the text encoder (node 21) always takes its `text`
from the translation stage output `["24", 0]`; node 24 always receives
the raw prompt, and the credentials only control whether the
`baidu_appid` / `baidu_appkey` keys appear among node 24 inputs (they do
exactly when both credentials are nonempty). -/
theorem buildWorkflow_translation_wiring (prompt : String)
    (width height steps : Int) (cfg : ℚ) (seed : Int)
    (baiduAppID baiduAppKey : String) :
    containsTranslationStage
      (buildWorkflow prompt width height steps cfg seed baiduAppID
        baiduAppKey) = true ∧
    nodeInput (lookupNode (buildWorkflow prompt width height steps cfg seed
        baiduAppID baiduAppKey) "21") "text" =
      some (JValue.arr [JValue.str "24", JValue.int 0]) ∧
    nodeInput (lookupNode (buildWorkflow prompt width height steps cfg seed
        baiduAppID baiduAppKey) "24") "text" =
      some (JValue.str prompt) ∧
    (baiduAppID ≠ "" ∧ baiduAppKey ≠ "" →
      nodeInput (lookupNode (buildWorkflow prompt width height steps cfg
          seed baiduAppID baiduAppKey) "24") "baidu_appid" =
        some (JValue.str baiduAppID) ∧
      nodeInput (lookupNode (buildWorkflow prompt width height steps cfg
          seed baiduAppID baiduAppKey) "24") "baidu_appkey" =
        some (JValue.str baiduAppKey)) ∧
    (¬(baiduAppID ≠ "" ∧ baiduAppKey ≠ "") →
      nodeInput (lookupNode (buildWorkflow prompt width height steps cfg
          seed baiduAppID baiduAppKey) "24") "baidu_appid" = none ∧
      nodeInput (lookupNode (buildWorkflow prompt width height steps cfg
          seed baiduAppID baiduAppKey) "24") "baidu_appkey" = none) := by
  refine ⟨rfl, rfl, ?_, ?_, ?_⟩
  · by_cases hc : baiduAppID ≠ "" ∧ baiduAppKey ≠ ""
    · simp only [buildWorkflow, if_pos hc]
      rfl
    · simp only [buildWorkflow, if_neg hc]
      rfl
  · intro hc
    simp only [buildWorkflow, if_pos hc]
    exact ⟨rfl, rfl⟩
  · intro hc
    simp only [buildWorkflow, if_neg hc]
    exact ⟨rfl, rfl⟩

/-- Claim C1, witness: with both credentials set they appear among node
24 inputs; with the app id empty they are absent. -/
theorem buildWorkflow_translation_wiring_witness :
    nodeInput (lookupNode (buildWorkflow "hi" 1080 1920 25 1 5 "id" "key")
      "24") "baidu_appid" = some (JValue.str "id") ∧
    nodeInput (lookupNode (buildWorkflow "hi" 1080 1920 25 1 5 "" "key")
      "24") "baidu_appid" = none := by
  constructor
  · exact ((buildWorkflow_translation_wiring "hi" 1080 1920 25 1 5 "id"
      "key").2.2.2.1 (by decide)).1
  · exact ((buildWorkflow_translation_wiring "hi" 1080 1920 25 1 5 ""
      "key").2.2.2.2 (by decide)).1

/-- Claim C2, counterexample: on a successful submission the POST body
has no `"job"` key at all — the job graph sits under `"prompt"`, the
client identifier under `"client_id"`. -/
theorem submit_body_job_key_cex :
    requestBodyLookup (Generate sampleClient sampleParams 7 sampleSubmitOK
      constTransportPolls) "job" = none ∧
    requestBodyLookup (Generate sampleClient sampleParams 7 sampleSubmitOK
      constTransportPolls) "prompt" =
      some (JValue.obj (buildWorkflow "hi" 1080 1920 25 1 5 "" "")) ∧
    requestBodyLookup (Generate sampleClient sampleParams 7 sampleSubmitOK
      constTransportPolls) "client_id" =
      some (JValue.str "huobao_drama") := ⟨rfl, rfl, rfl⟩

/-- Claim C2 (amended): for every call with a nonempty base endpoint the
POST body to `<base>/prompt` is a JSON object whose job graph is stored
under the key "prompt" (the key "job" is absent) and whose client
identifier is stored under "client_id". -/
theorem Generate_submit_body_keys (c : Client) (p : Params) (now : Int)
    (submit : SubmitOutcome) (polls : Nat → PollOutcome)
    (hb : c.BaseURL ≠ "") :
    requestBodyLookup (Generate c p now submit polls) "job" = none ∧
    requestBodyLookup (Generate c p now submit polls) "prompt" =
      some (JValue.obj (buildWorkflow
        (normalizeParams p now).Prompt (normalizeParams p now).Width
        (normalizeParams p now).Height (normalizeParams p now).Steps
        (normalizeParams p now).CFG (normalizeParams p now).Seed
        (normalizeParams p now).BaiduTranslateAppID
        (normalizeParams p now).BaiduTranslateAppKey)) ∧
    requestBodyLookup (Generate c p now submit polls) "client_id" =
      some (JValue.str
        (if c.ClientID = "" then "huobao_drama" else c.ClientID)) := by
  have h := Generate_requestBody_eq c p now submit polls hb
  unfold requestBodyLookup
  rw [h]
  exact ⟨rfl, rfl, rfl⟩

/-- Claim C2, witness: a concrete successful call, with the "job" key
absent and the client id defaulted. -/
theorem Generate_submit_body_keys_witness :
    requestBodyLookup (Generate sampleClient samplePositiveParams 7
      sampleSubmitOK constTransportPolls) "job" = none ∧
    requestBodyLookup (Generate sampleClient samplePositiveParams 7
      sampleSubmitOK constTransportPolls) "client_id" =
      some (JValue.str "huobao_drama") := by
  have h := Generate_submit_body_keys sampleClient samplePositiveParams 7
    sampleSubmitOK constTransportPolls (by decide)
  exact ⟨h.1, h.2.2⟩

/-- Claim C3: after a successful submission, if none of the 300 poll
attempts (each preceded by a one-second sleep, counted by `sleeps`)
locates a stage output holding an image for the job identifier, Generate
returns the timeout error and an empty image URL. -/
theorem Generate_timeout_after_300 (c : Client) (p : Params) (now : Int)
    (st bdy pid : String) (polls : Nat → PollOutcome)
    (hb : c.BaseURL ≠ "") (hp : pid ≠ "")
    (hnone : ∀ i, i < 300 →
      attemptFind (stripTrailingSlash c.BaseURL) pid (polls i) = none) :
    (Generate c p now (SubmitOutcome.resp 200 st bdy (some pid))
        polls).error = some "comfyui timeout waiting for result" ∧
    (Generate c p now (SubmitOutcome.resp 200 st bdy (some pid))
        polls).imageURL = "" ∧
    (Generate c p now (SubmitOutcome.resp 200 st bdy (some pid))
        polls).pollsAttempted = 300 ∧
    (Generate c p now (SubmitOutcome.resp 200 st bdy (some pid))
        polls).sleeps = 300 := by
  have hl := pollLoop_timeout_of_none (stripTrailingSlash c.BaseURL) pid
    polls 300 0 (fun j hj => by rw [Nat.zero_add]; exact hnone j hj)
  rw [Nat.zero_add] at hl
  have h := Generate_of_pollLoop_timeout c p now st bdy pid 300 polls hb hp
    hl
  exact ⟨h.2.1, h.1, h.2.2.1, h.2.2.2⟩

/-- Claim C3, witness: with every poll failing at the transport level,
the call times out after exactly 300 attempts. -/
theorem Generate_timeout_after_300_witness :
    (Generate sampleClient sampleParams 7 sampleSubmitOK
        constTransportPolls).error =
      some "comfyui timeout waiting for result" ∧
    (Generate sampleClient sampleParams 7 sampleSubmitOK
        constTransportPolls).imageURL = "" ∧
    (Generate sampleClient sampleParams 7 sampleSubmitOK
        constTransportPolls).pollsAttempted = 300 ∧
    (Generate sampleClient sampleParams 7 sampleSubmitOK
        constTransportPolls).sleeps = 300 := by
  exact Generate_timeout_after_300 sampleClient sampleParams 7 "200 OK"
    "ok" "abc" constTransportPolls (by decide) (by decide)
    (fun i _ => rfl)

/-- Claim C4: when poll attempt `i` decodes to a history containing the
job identifier whose entry has a stage output with at least one image,
Generate returns right after that attempt with the view URL built from
the base endpoint and the first image fields, and a nil error. -/
theorem Generate_returns_first_image (c : Client) (p : Params) (now : Int)
    (st bdy pid : String) (polls : Nat → PollOutcome) (i : Nat)
    (history : List (String × HistEntry)) (entry : HistEntry)
    (img : ImageInfo)
    (hb : c.BaseURL ≠ "") (hp : pid ≠ "") (hi : i < 300)
    (hbefore : ∀ j, j < i →
      attemptFind (stripTrailingSlash c.BaseURL) pid (polls j) = none)
    (hpoll : polls i = PollOutcome.resp (some history))
    (hentry : history.lookup pid = some entry)
    (himg : findFirstImage entry.Outputs = some img) :
    (Generate c p now (SubmitOutcome.resp 200 st bdy (some pid))
        polls).imageURL = viewURL (stripTrailingSlash c.BaseURL) img ∧
    (Generate c p now (SubmitOutcome.resp 200 st bdy (some pid))
        polls).error = none ∧
    (Generate c p now (SubmitOutcome.resp 200 st bdy (some pid))
        polls).pollsAttempted = i + 1 := by
  have h := Generate_locates_image c p now st bdy pid polls i history entry
    img hb hp hi hbefore hpoll hentry himg
  exact ⟨h.1, h.2.1, h.2.2.1⟩

/-- Claim C4, witness: the spec example — one stage output holding one
image with filename `a.png`, empty subfolder, type `output` — yields
exactly `http://x/view?filename=a.png&subfolder=&type=output` and a nil
error on the first attempt. -/
theorem Generate_returns_first_image_witness :
    (Generate sampleClient sampleParams 7 sampleSubmitOK
        samplePollsFound).imageURL =
      "http://x/view?filename=a.png&subfolder=&type=output" ∧
    (Generate sampleClient sampleParams 7 sampleSubmitOK
        samplePollsFound).error = none ∧
    (Generate sampleClient sampleParams 7 sampleSubmitOK
        samplePollsFound).pollsAttempted = 1 := by
  have h := Generate_returns_first_image sampleClient sampleParams 7
    "200 OK" "ok" "abc" samplePollsFound 0
    [("abc", { Outputs := [("9", { Images :=
      [{ Filename := "a.png", Subfolder := "", Typ := "output" }] })] })]
    { Outputs := [("9", { Images :=
      [{ Filename := "a.png", Subfolder := "", Typ := "output" }] })] }
    { Filename := "a.png", Subfolder := "", Typ := "output" }
    (by decide) (by decide) (by decide)
    (fun j hj => absurd hj (Nat.not_lt_zero j)) rfl rfl rfl
  exact ⟨h.1.trans rfl, h.2.1, h.2.2⟩

/-- Claim C5: any submission response with a status other than 200 makes
Generate fail with a message carrying both the status text and the body
text (exhibited by the explicit decomposition), with no poll attempt and
no sleep, and an empty image URL. -/
theorem Generate_non200_fatal (c : Client) (p : Params) (now : Int)
    (code : Nat) (st bdy : String) (dec : Option String)
    (polls : Nat → PollOutcome)
    (hb : c.BaseURL ≠ "") (hcode : code ≠ 200) :
    (Generate c p now (SubmitOutcome.resp code st bdy dec) polls).error =
      some ("comfyui submit " ++ st ++ ": " ++ bdy) ∧
    (∃ pre mid,
      (Generate c p now (SubmitOutcome.resp code st bdy dec) polls).error =
        some (pre ++ st ++ mid ++ bdy)) ∧
    (Generate c p now (SubmitOutcome.resp code st bdy dec)
        polls).pollsAttempted = 0 ∧
    (Generate c p now (SubmitOutcome.resp code st bdy dec)
        polls).sleeps = 0 ∧
    (Generate c p now (SubmitOutcome.resp code st bdy dec)
        polls).imageURL = "" := by
  unfold Generate
  simp only [if_neg hb, if_pos hcode]
  refine ⟨?_, ⟨"comfyui submit ", ": ", ?_⟩, ?_, ?_, ?_⟩ <;> trivial

/-- Claim C5, witness: status 500 with body `boom` produces the error
message `comfyui submit 500 Internal Server Error: boom` and zero polls. -/
theorem Generate_non200_fatal_witness :
    (Generate sampleClient sampleParams 7
        (SubmitOutcome.resp 500 "500 Internal Server Error" "boom" none)
        constTransportPolls).error =
      some "comfyui submit 500 Internal Server Error: boom" ∧
    (Generate sampleClient sampleParams 7
        (SubmitOutcome.resp 500 "500 Internal Server Error" "boom" none)
        constTransportPolls).pollsAttempted = 0 ∧
    (Generate sampleClient sampleParams 7
        (SubmitOutcome.resp 500 "500 Internal Server Error" "boom" none)
        constTransportPolls).sleeps = 0 := by
  have h := Generate_non200_fatal sampleClient sampleParams 7 500
    "500 Internal Server Error" "boom" none constTransportPolls
    (by decide) (by decide)
  exact ⟨h.1, h.2.2.1, h.2.2.2.1⟩

/-- Claim C6: a transport error or a decode error on one poll attempt is
treated exactly like a decoded history in which the job is not yet
present — replacing the failing attempt outcome by an empty decoded
history leaves the entire Generate trace unchanged, so no error is
returned from that attempt and the loop continues. -/
theorem Generate_poll_failure_is_not_ready (c : Client) (p : Params)
    (now : Int) (submit : SubmitOutcome)
    (polls polls' : Nat → PollOutcome) (i : Nat)
    (herr : polls i = PollOutcome.transportErr ∨
      polls i = PollOutcome.resp none)
    (hagree : ∀ j, polls' j =
      if j = i then PollOutcome.resp (some []) else polls j) :
    Generate c p now submit polls = Generate c p now submit polls' := by
  have hcongr : ∀ base pid, pollLoop base pid polls 0 300 =
      pollLoop base pid polls' 0 300 := by
    intro base pid
    apply pollLoop_congr
    intro j
    rw [hagree j]
    by_cases hj : j = i
    · subst hj
      rcases herr with h | h <;> rw [h, if_pos rfl] <;> rfl
    · rw [if_neg hj]
  by_cases hB : c.BaseURL = ""
  · simp only [Generate, if_pos hB]
  · cases submit with
    | transportErr msg => simp only [Generate, if_neg hB]
    | resp code stx bdyx decx =>
      by_cases hcode : code ≠ 200
      · simp only [Generate, if_neg hB, if_pos hcode]
      · cases decx with
        | none => simp only [Generate, if_neg hB, if_neg hcode]
        | some pid =>
          by_cases hpid : pid = ""
          · simp only [Generate, if_neg hB, if_neg hcode, if_pos hpid]
          · simp only [Generate, if_neg hB, if_neg hcode, if_neg hpid,
              hcongr]

/-- Claim C6, witness: a transport error on attempt 0 gives the very
same trace as an empty decoded history on attempt 0. -/
theorem Generate_poll_failure_is_not_ready_witness :
    Generate sampleClient sampleParams 7 sampleSubmitOK pollsErrAt0 =
      Generate sampleClient sampleParams 7 sampleSubmitOK
        pollsEmptyHistory := by
  apply Generate_poll_failure_is_not_ready sampleClient sampleParams 7
    sampleSubmitOK pollsErrAt0 pollsEmptyHistory 0
  · exact Or.inl rfl
  · intro j
    by_cases hj : j = 0
    · subst hj
      rfl
    · simp only [pollsEmptyHistory, pollsErrAt0, if_neg hj]

/-- Claim C7, counterexample: with `Seed = 0` and the clock at exactly
`10^14` nanoseconds past the epoch (an instant that recurs about every 28
hours), the derived seed is `0` — not a nonzero value. -/
theorem Generate_seed_zero_cex :
    sampleParamsSeed0.Seed = 0 ∧
    (Generate sampleClient sampleParamsSeed0 100000000000000 sampleSubmitOK
        constTransportPolls).params.Seed = 0 := ⟨rfl, rfl⟩

/-- Claim C7 (amended): with a nonnegative clock, a zero input seed is
replaced by the time-derived value `now % 10^14`, which is nonnegative
and strictly below `10^14` but may itself be zero; a nonzero input seed
is passed through unchanged. -/
theorem Generate_seed_normalization (c : Client) (p : Params) (now : Int)
    (submit : SubmitOutcome) (polls : Nat → PollOutcome)
    (hnow : 0 ≤ now) :
    (p.Seed = 0 →
      (Generate c p now submit polls).params.Seed =
        Int.tmod now 100000000000000 ∧
      0 ≤ (Generate c p now submit polls).params.Seed ∧
      (Generate c p now submit polls).params.Seed < 100000000000000) ∧
    (p.Seed ≠ 0 →
      (Generate c p now submit polls).params.Seed = p.Seed) := by
  rw [Generate_params_eq, normalizeParams_Seed]
  constructor
  · intro h0
    rw [if_pos h0]
    refine ⟨rfl, Int.tmod_nonneg _ hnow, ?_⟩
    rw [Int.tmod_eq_emod hnow (by norm_num)]
    exact Int.emod_lt_of_pos now (by norm_num)
  · intro hne
    rw [if_neg hne]

/-- Claim C7, witness: derived seed at clock 7 is 7 (zero input seed);
a nonzero input seed 5 is preserved. -/
theorem Generate_seed_normalization_witness :
    (Generate sampleClient sampleParamsSeed0 7 sampleSubmitOK
        constTransportPolls).params.Seed = 7 ∧
    (Generate sampleClient sampleParams 7 sampleSubmitOK
        constTransportPolls).params.Seed = 5 := by
  have h0 := (Generate_seed_normalization sampleClient sampleParamsSeed0 7
    sampleSubmitOK constTransportPolls (by decide)).1 rfl
  have h5 := (Generate_seed_normalization sampleClient sampleParams 7
    sampleSubmitOK constTransportPolls (by decide)).2 (by decide)
  exact ⟨h0.1.trans rfl, h5⟩

/-- Claim C8: the POST body graph is built from the normalized
parameters, and normalization replaces each non-positive numeric
parameter by its default (width 1080, height 1920, steps 25, guidance
scale 1) while passing every positive value through unchanged. -/
theorem Generate_numeric_defaults (c : Client) (p : Params) (now : Int)
    (submit : SubmitOutcome) (polls : Nat → PollOutcome)
    (hb : c.BaseURL ≠ "") :
    requestBodyLookup (Generate c p now submit polls) "prompt" =
      some (JValue.obj (buildWorkflow
        (normalizeParams p now).Prompt (normalizeParams p now).Width
        (normalizeParams p now).Height (normalizeParams p now).Steps
        (normalizeParams p now).CFG (normalizeParams p now).Seed
        (normalizeParams p now).BaiduTranslateAppID
        (normalizeParams p now).BaiduTranslateAppKey)) ∧
    ((p.Width ≤ 0 → (normalizeParams p now).Width = 1080) ∧
     (0 < p.Width → (normalizeParams p now).Width = p.Width)) ∧
    ((p.Height ≤ 0 → (normalizeParams p now).Height = 1920) ∧
     (0 < p.Height → (normalizeParams p now).Height = p.Height)) ∧
    ((p.Steps ≤ 0 → (normalizeParams p now).Steps = 25) ∧
     (0 < p.Steps → (normalizeParams p now).Steps = p.Steps)) ∧
    ((p.CFG ≤ 0 → (normalizeParams p now).CFG = 1) ∧
     (0 < p.CFG → (normalizeParams p now).CFG = p.CFG)) := by
  refine ⟨Generate_graph_eq c p now submit polls hb,
    ⟨?_, ?_⟩, ⟨?_, ?_⟩, ⟨?_, ?_⟩, ⟨?_, ?_⟩⟩
  · intro hle
    rw [normalizeParams_Width, if_pos hle]
  · intro hpos
    rw [normalizeParams_Width, if_neg (by omega)]
  · intro hle
    rw [normalizeParams_Height, if_pos hle]
  · intro hpos
    rw [normalizeParams_Height, if_neg (by omega)]
  · intro hle
    rw [normalizeParams_Steps, if_pos hle]
  · intro hpos
    rw [normalizeParams_Steps, if_neg (by omega)]
  · intro hle
    rw [normalizeParams_CFG, if_pos hle]
  · intro hpos
    rw [normalizeParams_CFG, if_neg (not_le.mpr hpos)]

/-- Claim C8, witness: all-unset parameters get 1080 / 1920 / 25 / 1 and
all-positive parameters are preserved. -/
theorem Generate_numeric_defaults_witness :
    (normalizeParams sampleParams 7).Width = 1080 ∧
    (normalizeParams sampleParams 7).Height = 1920 ∧
    (normalizeParams sampleParams 7).Steps = 25 ∧
    (normalizeParams sampleParams 7).CFG = 1 ∧
    (normalizeParams samplePositiveParams 7).Width = 3 ∧
    (normalizeParams samplePositiveParams 7).CFG = 2 := by
  have h := Generate_numeric_defaults sampleClient sampleParams 7
    sampleSubmitOK constTransportPolls (by decide)
  have h2 := Generate_numeric_defaults sampleClient samplePositiveParams 7
    sampleSubmitOK constTransportPolls (by decide)
  exact ⟨h.2.1.1 (by decide), h.2.2.1.1 (by decide), h.2.2.2.1.1 (by decide),
    h.2.2.2.2.1 (by decide), h2.2.1.2 (by decide), h2.2.2.2.2.2 (by decide)⟩

/-- Claim C9: Generate writes the substituted defaults and the derived
seed back through the caller's `*Params` pointer (modelled as the trace's
post-call `params`), and leaves the prompt and both credential fields
unchanged. -/
theorem Generate_params_writeback (c : Client) (p : Params) (now : Int)
    (submit : SubmitOutcome) (polls : Nat → PollOutcome) :
    (Generate c p now submit polls).params.Width =
      (if p.Width ≤ 0 then 1080 else p.Width) ∧
    (Generate c p now submit polls).params.Height =
      (if p.Height ≤ 0 then 1920 else p.Height) ∧
    (Generate c p now submit polls).params.Steps =
      (if p.Steps ≤ 0 then 25 else p.Steps) ∧
    (Generate c p now submit polls).params.CFG =
      (if p.CFG ≤ 0 then 1 else p.CFG) ∧
    (Generate c p now submit polls).params.Seed =
      (if p.Seed = 0 then Int.tmod now 100000000000000 else p.Seed) ∧
    (Generate c p now submit polls).params.Prompt = p.Prompt ∧
    (Generate c p now submit polls).params.BaiduTranslateAppID =
      p.BaiduTranslateAppID ∧
    (Generate c p now submit polls).params.BaiduTranslateAppKey =
      p.BaiduTranslateAppKey := by
  rw [Generate_params_eq]
  exact ⟨rfl, rfl, rfl, rfl, rfl, rfl, rfl, rfl⟩

/-- Claim C10: the returned image URL is plain interpolation of the base
endpoint and the located image fields — whatever URL-significant
characters the filename, subfolder, or type contain appear in it
verbatim, with no percent-encoding. -/
theorem Generate_url_verbatim (c : Client) (p : Params) (now : Int)
    (st bdy pid : String) (polls : Nat → PollOutcome) (i : Nat)
    (history : List (String × HistEntry)) (entry : HistEntry)
    (img : ImageInfo)
    (hb : c.BaseURL ≠ "") (hp : pid ≠ "") (hi : i < 300)
    (hbefore : ∀ j, j < i →
      attemptFind (stripTrailingSlash c.BaseURL) pid (polls j) = none)
    (hpoll : polls i = PollOutcome.resp (some history))
    (hentry : history.lookup pid = some entry)
    (himg : findFirstImage entry.Outputs = some img) :
    (Generate c p now (SubmitOutcome.resp 200 st bdy (some pid))
        polls).imageURL =
      stripTrailingSlash c.BaseURL ++ "/view?filename=" ++ img.Filename ++
        "&subfolder=" ++ img.Subfolder ++ "&type=" ++ img.Typ := by
  have h := Generate_locates_image c p now st bdy pid polls i history entry
    img hb hp hi hbefore hpoll hentry himg
  exact h.1

/-- Claim C10, witness: an image whose fields contain a space, `&` and
`=` yields a URL carrying them verbatim and unescaped. -/
theorem Generate_url_verbatim_witness :
    (Generate sampleClient sampleParams 7 sampleSubmitOK
        samplePollsSpecial).imageURL =
      "http://x/view?filename=a b.png&subfolder=x&y&type=out=put" := by
  have h := Generate_url_verbatim sampleClient sampleParams 7 "200 OK"
    "ok" "abc" samplePollsSpecial 0
    [("abc", { Outputs := [("9", { Images :=
      [{ Filename := "a b.png", Subfolder := "x&y", Typ := "out=put" }] })] })]
    { Outputs := [("9", { Images :=
      [{ Filename := "a b.png", Subfolder := "x&y", Typ := "out=put" }] })] }
    { Filename := "a b.png", Subfolder := "x&y", Typ := "out=put" }
    (by decide) (by decide) (by decide)
    (fun j hj => absurd hj (Nat.not_lt_zero j)) rfl rfl rfl
  exact h.trans rfl

end ComfyUI





